import Mathlib

/-!
Shallow embedding of the ShopStream billing testbed (src/app.py).

The app is a Streamlit UI around three billable operations, each wrapped in the
`monitor_guard` context manager, which writes exactly one row to a remote
`transactions` table at scope exit (status PROVISIONAL on success of the wrapped
work, VOIDED when it raised), a `run_batch` loop tallying successes and failures,
and an audit view listing the five most recent rows with a manual void button.

Modelling conventions:
- `uuid.uuid4()` is modelled as drawing from a fresh-id supply (a counter in the
  world state); freshness of each draw stands in for the global uniqueness of a
  random uuid.
- `datetime.utcnow()` is a natural-number clock in the world state; it advances
  whenever a record is timestamped and written (calls are separated by sleeps of
  at least half a second in the source, so successive timestamps are distinct).
- The float `revenue_potential` is carried as a rational; the program never
  computes with it, it is only stored and displayed.
- Exceptions are values of `Option String` (`some msg` = an exception carrying
  `msg` is propagating, `none` = normal completion).
- The remote store is the `table` field of the world; whether an upcoming
  `insert(...).execute()` call raises is prescribed by the `insertFailPlan`
  list (head = next insert call; an empty plan means inserts succeed).
- `st.toast` / `st.success` / `st.error` append to the corresponding
  user-visible surfaces of the world; `time.sleep` has no modelled effect.
-/

namespace ShopStream

/-- The two statuses the app ever writes for a transaction record. -/
inductive Status where
  | PROVISIONAL
  | VOIDED
deriving DecidableEq, Repr

/-- A row of the `transactions` table, with the fields built in
`monitor_guard._log_transaction` (src/app.py lines 52-59). -/
structure Txn where
  id : Nat
  entity_id : String
  product_key : String
  status : Status
  revenue : Rat
  created_at : Nat
deriving DecidableEq, Repr

/-- The world state threaded through the embedded program: the uuid supply, the
utc clock, the remote `transactions` table, the three user-visible surfaces,
and the plan of upcoming insert-call outcomes. -/
structure World where
  nextUuid : Nat
  clock : Nat
  table : List Txn
  errors : List String
  successes : List String
  toasts : List String
  insertFailPlan : List Bool
deriving DecidableEq, Repr

/-- Model of `supabase.table("transactions").insert(t).execute()`: the store
appends the new row. -/
def insertTxn (t : Txn) (tbl : List Txn) : List Txn := tbl ++ [t]

/-- Model of `.update(\x7b"status": s\x7d).eq("id", i).execute()` (src/app.py
line 139): set the status on every row whose id matches. -/
def updateStatus (i : Nat) (s : Status) (tbl : List Txn) : List Txn :=
  tbl.map fun t => if t.id = i then { t with status := s } else t

/-- The row order of the audit query: `created_at` descending. -/
def createdDesc (a b : Txn) : Prop := b.created_at ≤ a.created_at

instance : DecidableRel createdDesc := fun a b =>
  inferInstanceAs (Decidable (b.created_at ≤ a.created_at))

instance : IsTotal Txn createdDesc := ⟨fun a b => Nat.le_total b.created_at a.created_at⟩

instance : IsTrans Txn createdDesc := ⟨fun _ _ _ h h' => Nat.le_trans h' h⟩

/-- Model of `.select("*").order("created_at", desc=True).limit(5)` (src/app.py
line 134): the rows sorted by `created_at` descending, first five. -/
def selectAudit (tbl : List Txn) : List Txn :=
  (List.insertionSort createdDesc tbl).take 5

/-- The `monitor_guard` object: the three constructor arguments plus the
transaction id drawn at construction (src/app.py lines 32-37). -/
structure monitor_guard where
  entity_id : String
  product_key : String
  revenue_potential : Rat
  transaction_id : Nat
deriving DecidableEq, Repr

/-- Embeds `monitor_guard.__init__`: store the arguments and draw a fresh transaction
id from the uuid supply. Nothing is written to the store here. -/
def monitor_guard.init (entity_id product_key : String) (revenue_potential : Rat)
    (w : World) : monitor_guard × World :=
  (⟨entity_id, product_key, revenue_potential, w.nextUuid⟩,
   { w with nextUuid := w.nextUuid + 1 })

/-- Embeds `monitor_guard.__enter__`: emits the tracking toast; touches nothing else. -/
def monitor_guard.enter (g : monitor_guard) (w : World) : World :=
  { w with toasts := w.toasts ++ ["Tracking started: " ++ g.product_key] }

/-- Embeds `monitor_guard._log_transaction` (src/app.py lines 50-62): build the record
(`created_at` read from the clock at write time) and insert it; if the insert
raises, report via `st.error` and swallow. The clock has advanced by the next
call. -/
def monitor_guard.log_transaction (g : monitor_guard) (status : Status)
    (w : World) : World :=
  let t : Txn :=
    { id := g.transaction_id, entity_id := g.entity_id,
      product_key := g.product_key, status := status,
      revenue := g.revenue_potential, created_at := w.clock }
  match w.insertFailPlan with
  | [] =>
      { w with table := insertTxn t w.table, clock := w.clock + 1 }
  | b :: rest =>
      if b then
        { w with insertFailPlan := rest, clock := w.clock + 1,
                 errors := w.errors ++ ["Failed to log transaction"] }
      else
        { w with insertFailPlan := rest, table := insertTxn t w.table,
                 clock := w.clock + 1 }

/-- Embeds `monitor_guard.__exit__` (src/app.py lines 43-48): the status is VOIDED
exactly when an exception is active, else PROVISIONAL; the record is logged;
the returned Bool is `False`, so the exception is never suppressed. -/
def monitor_guard.guard_exit (g : monitor_guard) (exc : Option String)
    (w : World) : World × Bool :=
  (g.log_transaction (if exc.isSome then Status.VOIDED else Status.PROVISIONAL) w,
   false)

/-- Python `with monitor_guard(...)` semantics: construct, enter, run the body
(which may update the world and may raise), then run `__exit__` with the active
exception; the exception propagates to the caller unless `__exit__` returned
True. -/
def withGuard (entity_id product_key : String) (revenue_potential : Rat)
    (body : World → World × Option String) (w : World) : World × Option String :=
  let gw := monitor_guard.init entity_id product_key revenue_potential w
  let w1 := gw.1.enter gw.2
  let bw := body w1
  let ew := gw.1.guard_exit bw.2 bw.1
  (ew.1, if ew.2 then none else bw.2)

/-- Embeds `add_product_listing` (src/app.py lines 68-72): guard around a body that
raises exactly when `fail` is set, else shows a success message. -/
def add_product_listing (entity_id : String) (fail : Bool) (w : World) :
    World × Option String :=
  withGuard entity_id "listing" ((1 : Rat) / 10)
    (fun w0 =>
      if fail then (w0, some "Forced Listing Failure")
      else ({ w0 with successes := w0.successes ++ ["Listing added!"] }, none)) w

/-- Embeds `generate_smart_copy` (src/app.py lines 74-79): the simulated
text-generation call, guarded; raises exactly when `fail` is set. -/
def generate_smart_copy (entity_id : String) (fail : Bool) (w : World) :
    World × Option String :=
  withGuard entity_id "smart_copy" ((1 : Rat))
    (fun w0 =>
      if fail then (w0, some "Forced AI Generation Failure")
      else ({ w0 with successes := w0.successes ++ ["AI Copy ready!"] }, none)) w

/-- Embeds `brand_safety_check` (src/app.py lines 81-86). -/
def brand_safety_check (entity_id : String) (fail : Bool) (w : World) :
    World × Option String :=
  withGuard entity_id "brand_guard" ((5 : Rat))
    (fun w0 =>
      if fail then (w0, some "Forced Safety Guard Failure")
      else ({ w0 with successes := w0.successes ++ ["Safety check passed!"] }, none)) w

/-- The loop of `run_batch` (src/app.py lines 91-97), counting down the
remaining iterations: each iteration calls the operation, tallies a success on
normal return and a failure on any exception (the bare `except:` catches every
exception value), and never lets the exception escape. -/
def batchLoop (op_func : String → Bool → World → World × Option String)
    (entity_id : String) (fail : Bool) :
    Nat → World → Nat → Nat → World × Nat × Nat
  | 0, w, s, f => (w, s, f)
  | Nat.succ n, w, s, f =>
      let r := op_func entity_id fail w
      match r.2 with
      | none => batchLoop op_func entity_id fail n r.1 (s + 1) f
      | some _ => batchLoop op_func entity_id fail n r.1 s (f + 1)

/-- Embeds `run_batch` (src/app.py lines 88-98): run the loop from zero tallies, then
report the aggregate counts via `st.success`. Returns the final world and the
(successes, failures) pair the report shows. -/
def run_batch (op_func : String → Bool → World → World × Option String)
    (entity_id : String) (count : Nat) (fail : Bool) (w : World) :
    World × Nat × Nat :=
  let r := batchLoop op_func entity_id fail count w 0 0
  ({ r.1 with successes := r.1.successes ++
      ["Batch: " ++ toString r.2.1 ++ " Success, " ++ toString r.2.2 ++ " Fail"] },
   r.2)

/-- The void button handler (src/app.py line 139): an unconditional update
keyed by id, setting the status to VOIDED. -/
def voidById (i : Nat) (w : World) : World :=
  { w with table := updateStatus i Status.VOIDED w.table }

/-- The audit read of `main` (src/app.py line 134). -/
def auditRead (w : World) : List Txn := selectAudit w.table

/-- The three billable operations wired to the UI buttons. -/
inductive OpKind where
  | listing
  | smart_copy
  | brand_guard
deriving DecidableEq, Repr

/-- Dispatch an `OpKind` to its operation. -/
def OpKind.run : OpKind → String → Bool → World → World × Option String
  | .listing => add_product_listing
  | .smart_copy => generate_smart_copy
  | .brand_guard => brand_safety_check

/-- One user-triggered action of the app: a single operation button, a batch
button, or the void button — the last is only offered for a row of the audit
view whose status is PROVISIONAL (src/app.py line 138). -/
inductive Step : World → World → Prop
  | single (op : OpKind) (entity_id : String) (fail : Bool) (w : World) :
      Step w (op.run entity_id fail w).1
  | batch (op : OpKind) (entity_id : String) (count : Nat) (fail : Bool) (w : World) :
      Step w (run_batch op.run entity_id count fail w).1
  | voidAction (tx : Txn) (w : World) (hmem : tx ∈ auditRead w)
      (hst : tx.status = Status.PROVISIONAL) :
      Step w (voidById tx.id w)

/-- The world at app start, before any action: empty table and surfaces, with a
prescribed plan of insert-call outcomes. -/
def startWorld (plan : List Bool) : World :=
  ⟨0, 0, [], [], [], [], plan⟩

/-- Worlds the app can reach from a start world by user actions. -/
def Reachable (plan : List Bool) (w : World) : Prop :=
  Relation.ReflTransGen Step (startWorld plan) w

/-- The record `_log_transaction` builds for a guard at clock time `c`. -/
def guardRecord (g : monitor_guard) (status : Status) (c : Nat) : Txn :=
  { id := g.transaction_id, entity_id := g.entity_id, product_key := g.product_key,
    status := status, revenue := g.revenue_potential, created_at := c }

/-- The world right after guard construction and `__enter__`: the uuid supply
has advanced (the guard holds the drawn id) and the tracking toast is shown. -/
def afterEnter (p : String) (w : World) : World :=
  { w with nextUuid := w.nextUuid + 1,
           toasts := w.toasts ++ ["Tracking started: " ++ p] }

/-- The product key each operation passes to its guard. -/
def OpKind.key : OpKind → String
  | .listing => "listing"
  | .smart_copy => "smart_copy"
  | .brand_guard => "brand_guard"

/-- The revenue potential each operation passes to its guard. -/
def OpKind.revenue : OpKind → Rat
  | .listing => (1 : Rat) / 10
  | .smart_copy => (1 : Rat)
  | .brand_guard => (5 : Rat)

/-- The success message each operation shows. -/
def OpKind.okMsg : OpKind → String
  | .listing => "Listing added!"
  | .smart_copy => "AI Copy ready!"
  | .brand_guard => "Safety check passed!"

/-- The message of the forced exception each operation raises under `fail`. -/
def OpKind.failMsg : OpKind → String
  | .listing => "Forced Listing Failure"
  | .smart_copy => "Forced AI Generation Failure"
  | .brand_guard => "Forced Safety Guard Failure"

/-- The world after an operation's body has run inside the guard: on the
failure path the body only raises, on the success path it also shows the
operation's success message. -/
def afterBody (op : OpKind) (fail : Bool) (w : World) : World :=
  if fail then afterEnter op.key w
  else { afterEnter op.key w with
           successes := (afterEnter op.key w).successes ++ [op.okMsg] }

/-- How the world grows across the table-appending actions: uuid supply and
clock never go backwards, the table is only appended to, and every appended
record carries an id drawn from the supply and a timestamp read from the clock
during the interval, pairwise distinct among themselves. -/
def Evolves (w w' : World) : Prop :=
  w.nextUuid ≤ w'.nextUuid ∧ w.clock ≤ w'.clock ∧
  ∃ new : List Txn, w'.table = w.table ++ new ∧
    (∀ t ∈ new, w.nextUuid ≤ t.id ∧ t.id < w'.nextUuid ∧
                w.clock ≤ t.created_at ∧ t.created_at < w'.clock) ∧
    new.Pairwise (fun a b => a.id ≠ b.id ∧ a.created_at ≠ b.created_at)

/-- The data-model invariant of the transactions table: every row's id is
below the uuid supply and its timestamp below the clock, and ids and
timestamps are pairwise distinct. -/
def Inv (w : World) : Prop :=
  (∀ t ∈ w.table, t.id < w.nextUuid) ∧
  (∀ t ∈ w.table, t.created_at < w.clock) ∧
  w.table.Pairwise (fun a b => a.id ≠ b.id) ∧
  w.table.Pairwise (fun a b => a.created_at ≠ b.created_at)

/-- Modelled from the spec: the UI surfacing of a generation failure. The
button handler (src/app.py line 122) calls `generate_smart_copy` unguarded,
exactly once; the framework layer that renders an exception escaping the
handler is not part of src/, and per the spec the call "may fail and its
failure is surfaced to the user as an error message" — modelled here by
appending the escaped exception's message to the error surface. No retry. -/
def uiGenerateCopy (entity_id : String) (fail : Bool) (w : World) : World :=
  let r := generate_smart_copy entity_id fail w
  match r.2 with
  | none => r.1
  | some msg => { r.1 with errors := r.1.errors ++ [msg] }

/-! Theorems: the verification development over the embedding above. -/

theorem log_transaction_nil (g : monitor_guard) (status : Status) (w : World)
    (h : w.insertFailPlan = []) :
    g.log_transaction status w =
      { w with table := insertTxn (guardRecord g status w.clock) w.table,
               clock := w.clock + 1 } := by
  unfold monitor_guard.log_transaction guardRecord
  rw [h]

theorem log_transaction_consFalse (g : monitor_guard) (status : Status) (w : World)
    (rest : List Bool) (h : w.insertFailPlan = false :: rest) :
    g.log_transaction status w =
      { w with table := insertTxn (guardRecord g status w.clock) w.table,
               clock := w.clock + 1, insertFailPlan := rest } := by
  unfold monitor_guard.log_transaction guardRecord
  rw [h]
  simp

theorem log_transaction_consTrue (g : monitor_guard) (status : Status) (w : World)
    (rest : List Bool) (h : w.insertFailPlan = true :: rest) :
    g.log_transaction status w =
      { w with errors := w.errors ++ ["Failed to log transaction"],
               clock := w.clock + 1, insertFailPlan := rest } := by
  unfold monitor_guard.log_transaction
  rw [h]
  simp

/-- Master run equation for the guarded scope: once the body's result on the
post-enter world is known, `withGuard` is `_log_transaction` applied to the
body's world, with the status decided by the body's exception, which itself is
re-raised unchanged. -/
theorem withGuard_eq (e p : String) (r : Rat) (body : World → World × Option String)
    (w wmid : World) (exc : Option String)
    (hbody : body (afterEnter p w) = (wmid, exc)) :
    withGuard e p r body w =
      (monitor_guard.log_transaction ⟨e, p, r, w.nextUuid⟩
        (if exc.isSome then Status.VOIDED else Status.PROVISIONAL) wmid, exc) := by
  unfold withGuard monitor_guard.init monitor_guard.enter monitor_guard.guard_exit
  dsimp only
  rw [show ({ w with nextUuid := w.nextUuid + 1,
                     toasts := w.toasts ++ ["Tracking started: " ++ p] } : World)
        = afterEnter p w from rfl, hbody]
  rfl

/-- Closed-form run equation for each of the three operations. -/
theorem opRun_eq (op : OpKind) (e : String) (fail : Bool) (w : World) :
    op.run e fail w =
      (monitor_guard.log_transaction ⟨e, op.key, op.revenue, w.nextUuid⟩
        (if fail then Status.VOIDED else Status.PROVISIONAL)
        (afterBody op fail w),
       if fail then some op.failMsg else none) := by
  cases op <;> cases fail <;> rfl

/-- Shape of one `_log_transaction` call: the uuid supply is untouched, the
clock advances by one, and the table either gains exactly the guard's record
(timestamped with the pre-call clock) or, when the insert raises, is unchanged. -/
theorem log_transaction_shape (g : monitor_guard) (status : Status) (w : World) :
    (g.log_transaction status w).nextUuid = w.nextUuid ∧
    (g.log_transaction status w).clock = w.clock + 1 ∧
    ((g.log_transaction status w).table = w.table ∨
     (g.log_transaction status w).table = w.table ++ [guardRecord g status w.clock]) := by
  rcases h : w.insertFailPlan with _ | ⟨b, rest⟩
  · rw [log_transaction_nil g status w h]
    exact ⟨rfl, rfl, Or.inr rfl⟩
  · cases b
    · rw [log_transaction_consFalse g status w rest h]
      exact ⟨rfl, rfl, Or.inr rfl⟩
    · rw [log_transaction_consTrue g status w rest h]
      exact ⟨rfl, rfl, Or.inl rfl⟩

/-- Shape of one operation run: the uuid supply and clock each advance by one,
and the table either gains exactly one record — bearing the freshly drawn id
and the pre-run clock as timestamp — or, when the insert raises, is unchanged. -/
theorem opRun_shape (op : OpKind) (e : String) (fail : Bool) (w : World) :
    (op.run e fail w).1.nextUuid = w.nextUuid + 1 ∧
    (op.run e fail w).1.clock = w.clock + 1 ∧
    ((op.run e fail w).1.table = w.table ∨
     ∃ t : Txn, t.id = w.nextUuid ∧ t.created_at = w.clock ∧
       (op.run e fail w).1.table = w.table ++ [t]) := by
  rw [opRun_eq]
  have hmid : (afterBody op fail w).nextUuid = w.nextUuid + 1 ∧
      (afterBody op fail w).clock = w.clock ∧
      (afterBody op fail w).table = w.table := by
    cases fail <;> exact ⟨rfl, rfl, rfl⟩
  obtain ⟨hn, hc, ht⟩ := hmid
  obtain ⟨sn, sc, st⟩ := log_transaction_shape
    ⟨e, op.key, op.revenue, w.nextUuid⟩
    (if fail then Status.VOIDED else Status.PROVISIONAL) (afterBody op fail w)
  refine ⟨by rw [sn, hn], by rw [sc, hc], ?_⟩
  rcases st with h | h
  · exact Or.inl (by rw [h, ht])
  · exact Or.inr ⟨_, rfl, hc, by rw [h, ht]⟩

theorem evolves_refl (w : World) : Evolves w w :=
  ⟨le_refl _, le_refl _, [], by simp, by simp, List.Pairwise.nil⟩

theorem evolves_trans {w w' w'' : World} (h : Evolves w w') (h' : Evolves w' w'') :
    Evolves w w'' := by
  obtain ⟨hu, hc, new1, ht, hb, hp⟩ := h
  obtain ⟨hu', hc', new2, ht', hb', hp'⟩ := h'
  refine ⟨le_trans hu hu', le_trans hc hc', new1 ++ new2,
    by rw [ht', ht, List.append_assoc], ?_, ?_⟩
  · intro t htm
    rcases List.mem_append.mp htm with hm | hm
    · obtain ⟨b1, b2, b3, b4⟩ := hb t hm
      exact ⟨b1, lt_of_lt_of_le b2 hu', b3, lt_of_lt_of_le b4 hc'⟩
    · obtain ⟨b1, b2, b3, b4⟩ := hb' t hm
      exact ⟨le_trans hu b1, b2, le_trans hc b3, b4⟩
  · rw [List.pairwise_append]
    refine ⟨hp, hp', ?_⟩
    intro a ha b hbm
    obtain ⟨_, a2, _, a4⟩ := hb a ha
    obtain ⟨b1, _, b3, _⟩ := hb' b hbm
    exact ⟨Nat.ne_of_lt (lt_of_lt_of_le a2 b1), Nat.ne_of_lt (lt_of_lt_of_le a4 b3)⟩

theorem opRun_evolves (op : OpKind) (e : String) (fail : Bool) (w : World) :
    Evolves w (op.run e fail w).1 := by
  obtain ⟨hu, hc, ht⟩ := opRun_shape op e fail w
  rcases ht with h | ⟨t, hid, hcreated, h⟩
  · exact ⟨by rw [hu]; exact Nat.le_succ _, by rw [hc]; exact Nat.le_succ _,
      [], by simp [h], by simp, List.Pairwise.nil⟩
  · refine ⟨by rw [hu]; exact Nat.le_succ _, by rw [hc]; exact Nat.le_succ _,
      [t], by simp [h], ?_, List.pairwise_singleton _ _⟩
    intro u hu'
    rw [List.mem_singleton.mp hu']
    rw [hid, hcreated, hu, hc]
    exact ⟨le_refl _, Nat.lt_succ_self _, le_refl _, Nat.lt_succ_self _⟩

theorem batchLoop_evolves (op : OpKind) (e : String) (fail : Bool) :
    ∀ (n : Nat) (w : World) (s f : Nat),
      Evolves w (batchLoop op.run e fail n w s f).1 := by
  intro n
  induction n with
  | zero => intro w s f; exact evolves_refl w
  | succ m ih =>
      intro w s f
      have hstep := opRun_evolves op e fail w
      rcases hr : (op.run e fail w).2 with _ | msg <;>
        · show Evolves w (batchLoop op.run e fail (m + 1) w s f).1
          rw [show batchLoop op.run e fail (m + 1) w s f
              = (let r := op.run e fail w;
                 match r.2 with
                 | none => batchLoop op.run e fail m r.1 (s + 1) f
                 | some _ => batchLoop op.run e fail m r.1 s (f + 1)) from rfl]
          dsimp only
          rw [hr]
          exact evolves_trans hstep (ih _ _ _)

theorem run_batch_evolves (op : OpKind) (e : String) (n : Nat) (fail : Bool)
    (w : World) : Evolves w (run_batch op.run e n fail w).1 := by
  have h := batchLoop_evolves op e fail n w 0 0
  obtain ⟨hu, hc, new, ht, hb, hp⟩ := h
  exact ⟨hu, hc, new, ht, hb, hp⟩

theorem evolves_inv {w w' : World} (hi : Inv w) (he : Evolves w w') : Inv w' := by
  obtain ⟨i1, i2, i3, i4⟩ := hi
  obtain ⟨hu, hc, new, ht, hb, hp⟩ := he
  refine ⟨?_, ?_, ?_, ?_⟩
  · intro t htm
    rw [ht] at htm
    rcases List.mem_append.mp htm with hm | hm
    · exact lt_of_lt_of_le (i1 t hm) hu
    · exact (hb t hm).2.1
  · intro t htm
    rw [ht] at htm
    rcases List.mem_append.mp htm with hm | hm
    · exact lt_of_lt_of_le (i2 t hm) hc
    · exact (hb t hm).2.2.2
  · rw [ht, List.pairwise_append]
    refine ⟨i3, hp.imp (fun h => h.1), ?_⟩
    intro a ha b hbm
    exact Nat.ne_of_lt (lt_of_lt_of_le (i1 a ha) (hb b hbm).1)
  · rw [ht, List.pairwise_append]
    refine ⟨i4, hp.imp (fun h => h.2), ?_⟩
    intro a ha b hbm
    exact Nat.ne_of_lt (lt_of_lt_of_le (i2 a ha) (hb b hbm).2.2.1)

theorem updateStatus_id (i : Nat) (s : Status) (t : Txn) :
    (if t.id = i then { t with status := s } else t).id = t.id := by
  split <;> rfl

theorem updateStatus_created (i : Nat) (s : Status) (t : Txn) :
    (if t.id = i then { t with status := s } else t).created_at = t.created_at := by
  split <;> rfl

theorem voidById_inv {w : World} (hi : Inv w) (i : Nat) : Inv (voidById i w) := by
  obtain ⟨i1, i2, i3, i4⟩ := hi
  refine ⟨?_, ?_, ?_, ?_⟩
  · intro t htm
    obtain ⟨u, hum, hut⟩ := List.mem_map.mp htm
    rw [← hut, updateStatus_id]
    exact i1 u hum
  · intro t htm
    obtain ⟨u, hum, hut⟩ := List.mem_map.mp htm
    rw [← hut, updateStatus_created]
    exact i2 u hum
  · exact List.pairwise_map.mpr (i3.imp (fun {a b} h => by
      rw [updateStatus_id, updateStatus_id]; exact h))
  · exact List.pairwise_map.mpr (i4.imp (fun {a b} h => by
      rw [updateStatus_created, updateStatus_created]; exact h))

theorem step_inv {w w' : World} (hs : Step w w') (hi : Inv w) : Inv w' := by
  cases hs with
  | single op e fail w => exact evolves_inv hi (opRun_evolves op e fail w)
  | batch op e n fail w => exact evolves_inv hi (run_batch_evolves op e n fail w)
  | voidAction tx w hmem hst => exact voidById_inv hi tx.id

theorem reachable_inv {plan : List Bool} {w : World}
    (h : Reachable plan w) : Inv w := by
  induction h with
  | refl => exact ⟨by simp [startWorld], by simp [startWorld],
      List.Pairwise.nil, List.Pairwise.nil⟩
  | tail hr hs ih => exact step_inv hs ih

theorem auditRead_length_le (w : World) : (auditRead w).length ≤ 5 :=
  List.length_take_le 5 _

theorem auditRead_strict_sorted (w : World)
    (h : w.table.Pairwise fun a b => a.created_at ≠ b.created_at) :
    (auditRead w).Pairwise fun a b => b.created_at < a.created_at := by
  have hsorted : (List.insertionSort createdDesc w.table).Pairwise createdDesc :=
    List.sorted_insertionSort createdDesc w.table
  have hne : (List.insertionSort createdDesc w.table).Pairwise
      (fun a b => a.created_at ≠ b.created_at) :=
    ((List.perm_insertionSort createdDesc w.table).pairwise_iff
      (fun hab => hab.symm)).mpr h
  have hlt : (List.insertionSort createdDesc w.table).Pairwise
      (fun a b => b.created_at < a.created_at) :=
    (hsorted.and hne).imp (fun hab => Nat.lt_of_le_of_ne hab.1 hab.2.symm)
  exact hlt.sublist (List.take_sublist 5 _)

/-! Further helper lemmas shared by the claim theorems. -/

theorem afterBody_plan (op : OpKind) (fail : Bool) (w : World) :
    (afterBody op fail w).insertFailPlan = w.insertFailPlan := by
  cases fail <;> rfl

theorem afterBody_table (op : OpKind) (fail : Bool) (w : World) :
    (afterBody op fail w).table = w.table := by
  cases fail <;> rfl

theorem opRun_exc (op : OpKind) (e : String) (fail : Bool) (w : World) :
    (op.run e fail w).2 = if fail then some op.failMsg else none := by
  rw [opRun_eq]

/-- With a clean insert plan, one operation run appends exactly one record —
bearing the freshly drawn id, the operation's key and revenue, the pre-run
clock as timestamp, and the outcome-decided status — and leaves the plan clean. -/
theorem opRun_nilPlan (op : OpKind) (e : String) (fail : Bool) (w : World)
    (hplan : w.insertFailPlan = []) :
    (op.run e fail w).1.table = w.table ++
      [guardRecord ⟨e, op.key, op.revenue, w.nextUuid⟩
        (if fail then Status.VOIDED else Status.PROVISIONAL) w.clock] ∧
    (op.run e fail w).1.insertFailPlan = [] := by
  rw [opRun_eq]
  have hmid : (afterBody op fail w).insertFailPlan = [] := by
    rw [afterBody_plan, hplan]
  rw [log_transaction_nil _ _ _ hmid]
  have hc : (afterBody op fail w).clock = w.clock := by cases fail <;> rfl
  refine ⟨?_, hmid⟩
  rw [show (insertTxn (guardRecord ⟨e, op.key, op.revenue, w.nextUuid⟩
      (if fail then Status.VOIDED else Status.PROVISIONAL) (afterBody op fail w).clock)
      (afterBody op fail w).table)
    = (afterBody op fail w).table ++
      [guardRecord ⟨e, op.key, op.revenue, w.nextUuid⟩
        (if fail then Status.VOIDED else Status.PROVISIONAL) (afterBody op fail w).clock]
    from rfl, afterBody_table, hc]

theorem batchLoop_counts (op : OpKind) (e : String) (fail : Bool) :
    ∀ (n : Nat) (w : World) (s f : Nat),
      (batchLoop op.run e fail n w s f).2 =
        (s + (if fail then 0 else n), f + (if fail then n else 0)) := by
  intro n
  induction n with
  | zero => intro w s f; cases fail <;> rfl
  | succ m ih =>
      intro w s f
      rw [show batchLoop op.run e fail (m + 1) w s f
          = (let r := op.run e fail w;
             match r.2 with
             | none => batchLoop op.run e fail m r.1 (s + 1) f
             | some _ => batchLoop op.run e fail m r.1 s (f + 1)) from rfl]
      dsimp only
      rw [opRun_exc]
      cases fail
      · rw [if_neg (by simp)]
        rw [ih ((op.run e false w).1) (s + 1) f]
        simp [Nat.add_assoc, Nat.add_comm 1 m]
      · rw [if_pos rfl]
        rw [ih ((op.run e true w).1) s (f + 1)]
        simp [Nat.add_assoc, Nat.add_comm 1 m]

theorem batchLoop_sum (op_func : String → Bool → World → World × Option String)
    (e : String) (fail : Bool) :
    ∀ (n : Nat) (w : World) (s f : Nat),
      (batchLoop op_func e fail n w s f).2.1 + (batchLoop op_func e fail n w s f).2.2
        = s + f + n := by
  intro n
  induction n with
  | zero => intro w s f; rfl
  | succ m ih =>
      intro w s f
      rw [show batchLoop op_func e fail (m + 1) w s f
          = (let r := op_func e fail w;
             match r.2 with
             | none => batchLoop op_func e fail m r.1 (s + 1) f
             | some _ => batchLoop op_func e fail m r.1 s (f + 1)) from rfl]
      dsimp only
      rcases (op_func e fail w).2 with _ | msg
      · rw [ih]; omega
      · rw [ih]; omega

theorem run_batch_counts (op : OpKind) (e : String) (n : Nat) (fail : Bool)
    (w : World) :
    (run_batch op.run e n fail w).2 =
      (if fail then 0 else n, if fail then n else 0) := by
  unfold run_batch
  dsimp only
  rw [batchLoop_counts]
  simp

/-- C1: for every guard invocation whose record insert succeeds, if the wrapped
work completes without raising then exactly one record — the one written at
scope exit — is appended, with status PROVISIONAL, and no exception reaches the
caller; if the wrapped work raises, the record written at scope exit has status
VOIDED and the original exception is re-raised to the caller unchanged — the
guard never suppresses it. -/
theorem claim_C1_guard_status_and_reraise (e p : String) (r : Rat)
    (body : World → World × Option String) (w wmid : World) (exc : Option String)
    (hbody : body (afterEnter p w) = (wmid, exc))
    (hplan : wmid.insertFailPlan = []) :
    (exc = none →
      withGuard e p r body w =
        ({ wmid with
             table := wmid.table ++
               [guardRecord ⟨e, p, r, w.nextUuid⟩ Status.PROVISIONAL wmid.clock],
             clock := wmid.clock + 1 }, none)) ∧
    (∀ msg : String, exc = some msg →
      withGuard e p r body w =
        ({ wmid with
             table := wmid.table ++
               [guardRecord ⟨e, p, r, w.nextUuid⟩ Status.VOIDED wmid.clock],
             clock := wmid.clock + 1 }, some msg)) := by
  constructor
  · intro hnone
    subst hnone
    rw [withGuard_eq e p r body w wmid none hbody, log_transaction_nil _ _ _ hplan]
    rfl
  · intro msg hsome
    subst hsome
    rw [withGuard_eq e p r body w wmid (some msg) hbody,
        log_transaction_nil _ _ _ hplan]
    rfl

/-- Witness for C1 at a concrete input: a body that succeeds, and a body that
raises "boom", both from a fresh start world. -/
theorem claim_C1_witness :
    ((none : Option String) = none →
      withGuard "Test Shop A" "listing" ((1 : Rat) / 10) (fun w0 => (w0, none))
          (startWorld []) =
        ({ afterEnter "listing" (startWorld []) with
             table := (afterEnter "listing" (startWorld [])).table ++
               [guardRecord ⟨"Test Shop A", "listing", (1 : Rat) / 10, 0⟩
                 Status.PROVISIONAL (afterEnter "listing" (startWorld [])).clock],
             clock := (afterEnter "listing" (startWorld [])).clock + 1 }, none)) ∧
    (∀ msg : String, (none : Option String) = some msg →
      withGuard "Test Shop A" "listing" ((1 : Rat) / 10) (fun w0 => (w0, none))
          (startWorld []) =
        ({ afterEnter "listing" (startWorld []) with
             table := (afterEnter "listing" (startWorld [])).table ++
               [guardRecord ⟨"Test Shop A", "listing", (1 : Rat) / 10, 0⟩
                 Status.VOIDED (afterEnter "listing" (startWorld [])).clock],
             clock := (afterEnter "listing" (startWorld [])).clock + 1 }, some msg)) :=
  claim_C1_guard_status_and_reraise "Test Shop A" "listing" ((1 : Rat) / 10)
    (fun w0 => (w0, none)) (startWorld []) (afterEnter "listing" (startWorld []))
    none rfl rfl

/-- C2: for every guard invocation (with a clean insert plan), construction
draws the id without writing anything, entry writes nothing, and exactly one
record is created, at scope exit — bearing the id drawn at construction, fresh
with respect to the whole table; moreover in every reachable world the ids on
the table are pairwise distinct (global uniqueness). -/
theorem claim_C2_one_record_fresh_id (op : OpKind) (e : String) (fail : Bool)
    (w : World) (hplan : w.insertFailPlan = []) (hInv : Inv w) :
    ((monitor_guard.init e op.key op.revenue w).1.transaction_id = w.nextUuid ∧
     (monitor_guard.init e op.key op.revenue w).2.table = w.table) ∧
    (∀ g : monitor_guard, (g.enter w).table = w.table) ∧
    (∃ t : Txn, (op.run e fail w).1.table = w.table ++ [t] ∧
      t.id = w.nextUuid ∧ ∀ u ∈ w.table, u.id ≠ t.id) ∧
    (∀ (plan : List Bool) (w' : World), Reachable plan w' →
      w'.table.Pairwise fun a b => a.id ≠ b.id) := by
  refine ⟨⟨rfl, rfl⟩, fun g => rfl, ?_, ?_⟩
  · obtain ⟨ht, _⟩ := opRun_nilPlan op e fail w hplan
    refine ⟨_, ht, rfl, ?_⟩
    intro u hu
    exact Nat.ne_of_lt (hInv.1 u hu)
  · intro plan w' hr
    exact (reachable_inv hr).2.2.1

/-- Witness for C2: the listing operation on a fresh start world. -/
theorem claim_C2_witness :
    ((monitor_guard.init "Test Shop A" OpKind.listing.key OpKind.listing.revenue
        (startWorld [])).1.transaction_id = (startWorld []).nextUuid ∧
     (monitor_guard.init "Test Shop A" OpKind.listing.key OpKind.listing.revenue
        (startWorld [])).2.table = (startWorld []).table) ∧
    (∀ g : monitor_guard, (g.enter (startWorld [])).table = (startWorld []).table) ∧
    (∃ t : Txn,
      (OpKind.listing.run "Test Shop A" false (startWorld [])).1.table =
        (startWorld []).table ++ [t] ∧
      t.id = (startWorld []).nextUuid ∧
      ∀ u ∈ (startWorld []).table, u.id ≠ t.id) ∧
    (∀ (plan : List Bool) (w' : World), Reachable plan w' →
      w'.table.Pairwise fun a b => a.id ≠ b.id) :=
  claim_C2_one_record_fresh_id OpKind.listing "Test Shop A" false (startWorld [])
    rfl ⟨by simp [startWorld], by simp [startWorld],
      List.Pairwise.nil, List.Pairwise.nil⟩

/-- C3: if persisting the record fails (the insert raises), the failure is
reported on the user-visible error surface and swallowed: no record is written,
nothing else changes beyond the clock and the consumed plan entry, and the
caller still observes exactly the wrapped operation's own outcome `exc` —
never the logging error. -/
theorem claim_C3_log_failure_swallowed (e p : String) (r : Rat)
    (body : World → World × Option String) (w wmid : World) (exc : Option String)
    (hbody : body (afterEnter p w) = (wmid, exc))
    (rest : List Bool) (hplan : wmid.insertFailPlan = true :: rest) :
    withGuard e p r body w =
      ({ wmid with insertFailPlan := rest, clock := wmid.clock + 1,
                   errors := wmid.errors ++ ["Failed to log transaction"] }, exc) := by
  rw [withGuard_eq e p r body w wmid exc hbody,
      log_transaction_consTrue _ _ _ rest hplan]

/-- Witness for C3: a raising body under a failing insert; the caller sees the
body's own "boom", not the logging failure. -/
theorem claim_C3_witness :
    withGuard "Test Shop A" "listing" ((1 : Rat) / 10) (fun w0 => (w0, some "boom"))
        (startWorld [true]) =
      ({ afterEnter "listing" (startWorld [true]) with
           insertFailPlan := ([] : List Bool),
           clock := (afterEnter "listing" (startWorld [true])).clock + 1,
           errors := (afterEnter "listing" (startWorld [true])).errors ++
             ["Failed to log transaction"] }, some "boom") :=
  claim_C3_log_failure_swallowed "Test Shop A" "listing" ((1 : Rat) / 10)
    (fun w0 => (w0, some "boom")) (startWorld [true])
    (afterEnter "listing" (startWorld [true])) (some "boom") rfl [] rfl

/-- C4: for every operation, entity id and repeat count n ≥ 1, the batch runner
performs n sequential invocations — with a clean insert plan the table gains
exactly n records — and reports successes = 0, failures = n under fail = True,
and successes = n, failures = 0 under fail = False; each iteration's error is
caught locally, so the batch always runs to completion. -/
theorem claim_C4_batch_counts (op : OpKind) (e : String) (n : Nat) (w : World)
    (hn : 1 ≤ n) (hplan : w.insertFailPlan = []) :
    (run_batch op.run e n true w).2 = (0, n) ∧
    (run_batch op.run e n false w).2 = (n, 0) ∧
    (∀ fail : Bool,
      (run_batch op.run e n fail w).1.table.length = w.table.length + n) := by
  refine ⟨by rw [run_batch_counts]; simp, by rw [run_batch_counts]; simp, ?_⟩
  have key : ∀ (fail : Bool) (m : Nat) (w0 : World) (s f : Nat),
      w0.insertFailPlan = [] →
      (batchLoop op.run e fail m w0 s f).1.table.length = w0.table.length + m ∧
      (batchLoop op.run e fail m w0 s f).1.insertFailPlan = [] := by
    intro fail m
    induction m with
    | zero => intro w0 s f h0; exact ⟨rfl, h0⟩
    | succ k ih =>
        intro w0 s f h0
        obtain ⟨ht, hp⟩ := opRun_nilPlan op e fail w0 h0
        rw [show batchLoop op.run e fail (k + 1) w0 s f
            = (let r := op.run e fail w0;
               match r.2 with
               | none => batchLoop op.run e fail k r.1 (s + 1) f
               | some _ => batchLoop op.run e fail k r.1 s (f + 1)) from rfl]
        dsimp only
        rcases hx : (op.run e fail w0).2 with _ | msg
        · obtain ⟨l1, l2⟩ := ih ((op.run e fail w0).1) (s + 1) f hp
          refine ⟨?_, l2⟩
          rw [l1, ht]
          simp [Nat.add_assoc, Nat.add_comm 1 k]
        · obtain ⟨l1, l2⟩ := ih ((op.run e fail w0).1) s (f + 1) hp
          refine ⟨?_, l2⟩
          rw [l1, ht]
          simp [Nat.add_assoc, Nat.add_comm 1 k]
  intro fail
  unfold run_batch
  dsimp only
  exact (key fail n w 0 0 hplan).1

/-- Witness for C4: batches of five listings from a fresh start world. -/
theorem claim_C4_witness :
    (run_batch OpKind.listing.run "Test Shop A" 5 true (startWorld [])).2 = (0, 5) ∧
    (run_batch OpKind.listing.run "Test Shop A" 5 false (startWorld [])).2 = (5, 0) ∧
    (∀ fail : Bool,
      (run_batch OpKind.listing.run "Test Shop A" 5 fail (startWorld [])).1.table.length
        = (startWorld []).table.length + 5) :=
  claim_C4_batch_counts OpKind.listing "Test Shop A" 5 (startWorld [])
    (by decide) rfl

theorem voided_eta (t : Txn) (h : t.status = Status.VOIDED) :
    { t with status := Status.VOIDED } = t := by
  cases t
  simp only at h
  rw [h]

/-- C5: applying the manual void action to a PROVISIONAL record updates, keyed
by its id, only the status field — the table keeps its length, the record
reappears with status VOIDED and every other field intact, and records with a
different id are untouched at their positions — and a second application is a
no-op on the table state. -/
theorem claim_C5_void_frame_idempotent (tbl : List Txn) (t : Txn)
    (ht : t ∈ tbl) (hst : t.status = Status.PROVISIONAL) :
    (updateStatus t.id Status.VOIDED tbl).length = tbl.length ∧
    { t with status := Status.VOIDED } ∈ updateStatus t.id Status.VOIDED tbl ∧
    (∀ (j : Nat) (h : j < tbl.length) (h' : j < (updateStatus t.id Status.VOIDED tbl).length),
      (tbl.get ⟨j, h⟩).id ≠ t.id →
      (updateStatus t.id Status.VOIDED tbl).get ⟨j, h'⟩ = tbl.get ⟨j, h⟩) ∧
    updateStatus t.id Status.VOIDED (updateStatus t.id Status.VOIDED tbl) =
      updateStatus t.id Status.VOIDED tbl := by
  refine ⟨List.length_map _ _, ?_, ?_, ?_⟩
  · exact List.mem_map.mpr ⟨t, ht, if_pos rfl⟩
  · intro j h h' hne
    show (List.map _ tbl).get ⟨j, h'⟩ = tbl.get ⟨j, h⟩
    rw [List.get_map]
    exact if_neg hne
  · unfold updateStatus
    rw [List.map_map]
    apply List.map_congr_left
    intro u _
    by_cases hu : u.id = t.id
    · simp [Function.comp, hu]
    · simp [Function.comp, hu]

/-- Witness for C5: a two-row table with one PROVISIONAL row. -/
theorem claim_C5_witness :
    (updateStatus 0 Status.VOIDED
        [⟨0, "Test Shop A", "listing", Status.PROVISIONAL, (1 : Rat) / 10, 0⟩,
         ⟨1, "Test Shop B", "smart_copy", Status.VOIDED, 1, 1⟩]).length =
      ([⟨0, "Test Shop A", "listing", Status.PROVISIONAL, (1 : Rat) / 10, 0⟩,
        ⟨1, "Test Shop B", "smart_copy", Status.VOIDED, 1, 1⟩] : List Txn).length ∧
    ({ (⟨0, "Test Shop A", "listing", Status.PROVISIONAL, (1 : Rat) / 10, 0⟩ : Txn) with
        status := Status.VOIDED } ∈
      updateStatus 0 Status.VOIDED
        [⟨0, "Test Shop A", "listing", Status.PROVISIONAL, (1 : Rat) / 10, 0⟩,
         ⟨1, "Test Shop B", "smart_copy", Status.VOIDED, 1, 1⟩]) ∧
    (∀ (j : Nat)
       (h : j < ([⟨0, "Test Shop A", "listing", Status.PROVISIONAL, (1 : Rat) / 10, 0⟩,
                  ⟨1, "Test Shop B", "smart_copy", Status.VOIDED, 1, 1⟩] : List Txn).length)
       (h' : j < (updateStatus 0 Status.VOIDED
                  [⟨0, "Test Shop A", "listing", Status.PROVISIONAL, (1 : Rat) / 10, 0⟩,
                   ⟨1, "Test Shop B", "smart_copy", Status.VOIDED, 1, 1⟩]).length),
      (([⟨0, "Test Shop A", "listing", Status.PROVISIONAL, (1 : Rat) / 10, 0⟩,
         ⟨1, "Test Shop B", "smart_copy", Status.VOIDED, 1, 1⟩] : List Txn).get ⟨j, h⟩).id ≠ 0 →
      (updateStatus 0 Status.VOIDED
        [⟨0, "Test Shop A", "listing", Status.PROVISIONAL, (1 : Rat) / 10, 0⟩,
         ⟨1, "Test Shop B", "smart_copy", Status.VOIDED, 1, 1⟩]).get ⟨j, h'⟩ =
      ([⟨0, "Test Shop A", "listing", Status.PROVISIONAL, (1 : Rat) / 10, 0⟩,
        ⟨1, "Test Shop B", "smart_copy", Status.VOIDED, 1, 1⟩] : List Txn).get ⟨j, h⟩) ∧
    updateStatus 0 Status.VOIDED (updateStatus 0 Status.VOIDED
        [⟨0, "Test Shop A", "listing", Status.PROVISIONAL, (1 : Rat) / 10, 0⟩,
         ⟨1, "Test Shop B", "smart_copy", Status.VOIDED, 1, 1⟩]) =
      updateStatus 0 Status.VOIDED
        [⟨0, "Test Shop A", "listing", Status.PROVISIONAL, (1 : Rat) / 10, 0⟩,
         ⟨1, "Test Shop B", "smart_copy", Status.VOIDED, 1, 1⟩] :=
  claim_C5_void_frame_idempotent
    [⟨0, "Test Shop A", "listing", Status.PROVISIONAL, (1 : Rat) / 10, 0⟩,
     ⟨1, "Test Shop B", "smart_copy", Status.VOIDED, 1, 1⟩]
    ⟨0, "Test Shop A", "listing", Status.PROVISIONAL, (1 : Rat) / 10, 0⟩
    (by simp) rfl

/-- C6: in every world the app can reach, the audit read returns at most five
records, in strictly descending order of creation time. -/
theorem claim_C6_audit_recent_five (plan : List Bool) (w : World)
    (h : Reachable plan w) :
    (auditRead w).length ≤ 5 ∧
    (auditRead w).Pairwise fun a b => b.created_at < a.created_at :=
  ⟨auditRead_length_le w, auditRead_strict_sorted w (reachable_inv h).2.2.2⟩

/-- Witness for C6: the world after a successful listing followed by a failed
smart-copy, reached from a fresh start. -/
theorem claim_C6_witness :
    (auditRead (OpKind.smart_copy.run "Test Shop A" true
        (OpKind.listing.run "Test Shop A" false (startWorld [])).1).1).length ≤ 5 ∧
    (auditRead (OpKind.smart_copy.run "Test Shop A" true
        (OpKind.listing.run "Test Shop A" false (startWorld [])).1).1).Pairwise
      fun a b => b.created_at < a.created_at :=
  claim_C6_audit_recent_five [] _
    (Relation.ReflTransGen.tail
      (Relation.ReflTransGen.tail Relation.ReflTransGen.refl
        (Step.single OpKind.listing "Test Shop A" false (startWorld [])))
      (Step.single OpKind.smart_copy "Test Shop A" true
        (OpKind.listing.run "Test Shop A" false (startWorld [])).1))

/-- C7: across any single app action, every record already on the table
survives with its id, and its status either is unchanged or moves
PROVISIONAL→VOIDED; in particular a VOIDED record stays exactly as it is —
VOIDED is terminal, and no record ever moves back to PROVISIONAL. New records
are only ever written with status PROVISIONAL or VOIDED directly (the status
type has no other value). -/
theorem claim_C7_state_machine (w w' : World) (hs : Step w w')
    (t : Txn) (ht : t ∈ w.table) :
    ∃ t' ∈ w'.table, t'.id = t.id ∧
      (t' = t ∨ (t.status = Status.PROVISIONAL ∧
                 t' = { t with status := Status.VOIDED })) ∧
      (t.status = Status.VOIDED → t' = t) := by
  cases hs with
  | single op e fail w =>
      obtain ⟨_, _, new, htab, _, _⟩ := opRun_evolves op e fail w
      exact ⟨t, by rw [htab]; exact List.mem_append_left new ht, rfl,
        Or.inl rfl, fun _ => rfl⟩
  | batch op e n fail w =>
      obtain ⟨_, _, new, htab, _, _⟩ := run_batch_evolves op e n fail w
      exact ⟨t, by rw [htab]; exact List.mem_append_left new ht, rfl,
        Or.inl rfl, fun _ => rfl⟩
  | voidAction tx w hmem hst =>
      refine ⟨if t.id = tx.id then { t with status := Status.VOIDED } else t,
        List.mem_map_of_mem _ ht, ?_, ?_, ?_⟩
      · by_cases h : t.id = tx.id
        · rw [if_pos h]
        · rw [if_neg h]
      · by_cases h : t.id = tx.id
        · rw [if_pos h]
          cases hts : t.status
          · exact Or.inr ⟨rfl, rfl⟩
          · exact Or.inl (voided_eta t hts)
        · exact Or.inl (if_neg h)
      · intro hts
        by_cases h : t.id = tx.id
        · rw [if_pos h]
          exact voided_eta t hts
        · exact if_neg h

/-- Witness for C7: the void action applied to the PROVISIONAL row of a
one-row table, watched from that row's perspective. -/
theorem claim_C7_witness :
    ∃ t' ∈ (voidById 0
        { nextUuid := 1, clock := 1,
          table := [⟨0, "Test Shop A", "listing", Status.PROVISIONAL, (1 : Rat) / 10, 0⟩],
          errors := [], successes := [], toasts := [], insertFailPlan := [] }).table,
      t'.id = (⟨0, "Test Shop A", "listing", Status.PROVISIONAL, (1 : Rat) / 10, 0⟩ : Txn).id ∧
      (t' = (⟨0, "Test Shop A", "listing", Status.PROVISIONAL, (1 : Rat) / 10, 0⟩ : Txn) ∨
       ((⟨0, "Test Shop A", "listing", Status.PROVISIONAL, (1 : Rat) / 10, 0⟩ : Txn).status
          = Status.PROVISIONAL ∧
        t' = { (⟨0, "Test Shop A", "listing", Status.PROVISIONAL, (1 : Rat) / 10, 0⟩ : Txn) with
                 status := Status.VOIDED })) ∧
      ((⟨0, "Test Shop A", "listing", Status.PROVISIONAL, (1 : Rat) / 10, 0⟩ : Txn).status
          = Status.VOIDED →
        t' = (⟨0, "Test Shop A", "listing", Status.PROVISIONAL, (1 : Rat) / 10, 0⟩ : Txn)) :=
  claim_C7_state_machine
    { nextUuid := 1, clock := 1,
      table := [⟨0, "Test Shop A", "listing", Status.PROVISIONAL, (1 : Rat) / 10, 0⟩],
      errors := [], successes := [], toasts := [], insertFailPlan := [] }
    _
    (Step.voidAction ⟨0, "Test Shop A", "listing", Status.PROVISIONAL, (1 : Rat) / 10, 0⟩
      _ (List.mem_singleton.mpr rfl) rfl)
    ⟨0, "Test Shop A", "listing", Status.PROVISIONAL, (1 : Rat) / 10, 0⟩
    (by simp)

theorem opRun_nilPlan_errors (op : OpKind) (e : String) (fail : Bool) (w : World)
    (hplan : w.insertFailPlan = []) :
    (op.run e fail w).1.errors = w.errors := by
  rw [opRun_eq]
  have hmid : (afterBody op fail w).insertFailPlan = [] := by
    rw [afterBody_plan, hplan]
  rw [log_transaction_nil _ _ _ hmid]
  cases fail <;> rfl

/-- C8: when the text-generation call fails (the forced failure of
`generate_smart_copy`), the failure reaches the user: the exception escapes
the single call — no retry is attempted, exactly one (VOIDED) record shows the
one attempt — and the UI surface shows it as an error message. -/
theorem claim_C8_generation_failure_surfaced (e : String) (w : World)
    (hplan : w.insertFailPlan = []) :
    (generate_smart_copy e true w).2 = some "Forced AI Generation Failure" ∧
    (uiGenerateCopy e true w).errors = w.errors ++ ["Forced AI Generation Failure"] ∧
    (∃ t : Txn, (generate_smart_copy e true w).1.table = w.table ++ [t] ∧
      t.status = Status.VOIDED) := by
  have hexc : (generate_smart_copy e true w).2 = some "Forced AI Generation Failure" :=
    opRun_exc OpKind.smart_copy e true w
  refine ⟨hexc, ?_, ?_⟩
  · show (match (generate_smart_copy e true w).2 with
      | none => (generate_smart_copy e true w).1
      | some msg => { (generate_smart_copy e true w).1 with
          errors := (generate_smart_copy e true w).1.errors ++ [msg] }).errors
      = w.errors ++ ["Forced AI Generation Failure"]
    rw [hexc]
    show (generate_smart_copy e true w).1.errors ++ ["Forced AI Generation Failure"]
      = w.errors ++ ["Forced AI Generation Failure"]
    rw [show (generate_smart_copy e true w).1.errors
        = (OpKind.smart_copy.run e true w).1.errors from rfl,
      opRun_nilPlan_errors OpKind.smart_copy e true w hplan]
  · obtain ⟨ht, _⟩ := opRun_nilPlan OpKind.smart_copy e true w hplan
    exact ⟨_, ht, rfl⟩

/-- Witness for C8: the failing smart-copy call from a fresh start world. -/
theorem claim_C8_witness :
    (generate_smart_copy "Test Shop A" true (startWorld [])).2 =
      some "Forced AI Generation Failure" ∧
    (uiGenerateCopy "Test Shop A" true (startWorld [])).errors =
      (startWorld []).errors ++ ["Forced AI Generation Failure"] ∧
    (∃ t : Txn,
      (generate_smart_copy "Test Shop A" true (startWorld [])).1.table =
        (startWorld []).table ++ [t] ∧
      t.status = Status.VOIDED) :=
  claim_C8_generation_failure_surfaced "Test Shop A" (startWorld []) rfl

/-- C9: for every operation — succeeding, failing, or any world-dependent
mixture of the two — the batch runner's reported tallies sum to the repeat
count: every iteration is accounted, and no iteration's exception escapes the
loop (the bare except catches every exception value, so `run_batch` is a total
function with no exception channel). -/
theorem claim_C9_batch_total (op_func : String → Bool → World → World × Option String)
    (e : String) (n : Nat) (fail : Bool) (w : World) (hn : 1 ≤ n) :
    (run_batch op_func e n fail w).2.1 + (run_batch op_func e n fail w).2.2 = n := by
  unfold run_batch
  dsimp only
  rw [batchLoop_sum]
  omega

/-- Witness for C9: a batch of four over an operation that alternates between
raising and succeeding depending on the world's clock parity. -/
theorem claim_C9_witness :
    (run_batch
      (fun _ _ w0 =>
        if w0.clock % 2 = 0 then ({ w0 with clock := w0.clock + 1 }, some "odd tick")
        else ({ w0 with clock := w0.clock + 1 }, none))
      "Test Shop A" 4 false (startWorld [])).2.1 +
    (run_batch
      (fun _ _ w0 =>
        if w0.clock % 2 = 0 then ({ w0 with clock := w0.clock + 1 }, some "odd tick")
        else ({ w0 with clock := w0.clock + 1 }, none))
      "Test Shop A" 4 false (startWorld [])).2.2 = 4 :=
  claim_C9_batch_total
    (fun _ _ w0 =>
      if w0.clock % 2 = 0 then ({ w0 with clock := w0.clock + 1 }, some "odd tick")
      else ({ w0 with clock := w0.clock + 1 }, none))
    "Test Shop A" 4 false (startWorld []) (by decide)

/-- C10: for every guard invocation whose insert succeeds, the persisted
record's id, entity_id, product_key and revenue are exactly the id drawn at
construction and the constructor arguments, whatever the body did to the world
and whether or not it raised — only the status field depends on the outcome —
and created_at is the clock at record-write time (after the body ran), not at
guard creation. -/
theorem claim_C10_record_fields (e p : String) (r : Rat) (f : World → World)
    (exc : Option String) (w wmid : World)
    (hmid : f (afterEnter p w) = wmid)
    (hplan : wmid.insertFailPlan = []) :
    (withGuard e p r (fun w0 => (f w0, exc)) w).1.table =
      wmid.table ++
        [{ id := w.nextUuid, entity_id := e, product_key := p,
           status := if exc.isSome then Status.VOIDED else Status.PROVISIONAL,
           revenue := r, created_at := wmid.clock }] := by
  have hbody : (fun w0 => (f w0, exc)) (afterEnter p w) = (wmid, exc) := by
    dsimp only
    rw [hmid]
  rw [withGuard_eq e p r _ w wmid exc hbody, log_transaction_nil _ _ _ hplan]
  rfl

/-- Witness for C10: a body that advances the clock by 41 before raising, and
the same body completing normally — the two persisted records agree on every
field except status, and both are stamped with the write-time clock 41, not
the construction-time clock 0. -/
theorem claim_C10_witness :
    ((withGuard "Test Shop A" "brand_guard" 5
        (fun w0 => ({ w0 with clock := w0.clock + 41 }, some "err"))
        (startWorld [])).1.table =
      { afterEnter "brand_guard" (startWorld []) with
          clock := (afterEnter "brand_guard" (startWorld [])).clock + 41 }.table ++
        [{ id := 0, entity_id := "Test Shop A", product_key := "brand_guard",
           status := Status.VOIDED, revenue := 5,
           created_at := { afterEnter "brand_guard" (startWorld []) with
             clock := (afterEnter "brand_guard" (startWorld [])).clock + 41 }.clock }]) ∧
    ((withGuard "Test Shop A" "brand_guard" 5
        (fun w0 => ({ w0 with clock := w0.clock + 41 }, none))
        (startWorld [])).1.table =
      { afterEnter "brand_guard" (startWorld []) with
          clock := (afterEnter "brand_guard" (startWorld [])).clock + 41 }.table ++
        [{ id := 0, entity_id := "Test Shop A", product_key := "brand_guard",
           status := Status.PROVISIONAL, revenue := 5,
           created_at := { afterEnter "brand_guard" (startWorld []) with
             clock := (afterEnter "brand_guard" (startWorld [])).clock + 41 }.clock }]) :=
  ⟨claim_C10_record_fields "Test Shop A" "brand_guard" 5
      (fun w0 => { w0 with clock := w0.clock + 41 }) (some "err") (startWorld []) _ rfl rfl,
   claim_C10_record_fields "Test Shop A" "brand_guard" 5
      (fun w0 => { w0 with clock := w0.clock + 41 }) none (startWorld []) _ rfl rfl⟩

end ShopStream

